import Mathlib

/-!
Verification of the pool-persistence subsystem of a full-node
transaction-relay engine (mempool and orphan-pool snapshotting), as
exercised by the test `qa/rpc-tests/mempool_persist.py`.

The subsystem itself (Snapshot Writer, Snapshot Loader, Persistence
Controller, admission depth limits) is modelled from the specification;
the concrete constants (file names `mempool.dat` / `orphanpool.dat`, the
temporary-file suffix `.new`, the unconfirmed-chain depth limit 50, the
error message "Unable to dump <pool> to disk") come from the test.
-/

set_option autoImplicit false

namespace MempoolPersist

/-- Transactions are identified abstractly by a natural number. -/
abbrev Tx := Nat

/-- Modelled from the spec: an entry of the node-local filesystem is either a
regular file holding a decoded snapshot (an ordered sequence of pool
entries) or a directory. -/
inductive FsEntry where
| file (contents : List Tx)
| dir
deriving DecidableEq

/-- Modelled from the spec: the node-local filesystem, an association list
from paths to entries (most recent binding first). -/
abbrev FS := List (String × FsEntry)

/-- Look up the entry at a path. -/
def FS.lookup : FS → String → Option FsEntry
| [], _ => none
| (q, e) :: rest, p => if q = p then some e else FS.lookup rest p

/-- Remove every binding at a path. -/
def FS.erase : FS → String → FS
| [], _ => []
| (q, e) :: rest, p => if q = p then FS.erase rest p else (q, e) :: FS.erase rest p

/-- Write a regular file at a path, replacing whatever was there. -/
def FS.write (fs : FS) (p : String) (c : List Tx) : FS :=
  (p, FsEntry.file c) :: FS.erase fs p

/-- Create a directory at a path (models `os.mkdir`). -/
def FS.mkdir (fs : FS) (p : String) : FS :=
  (p, FsEntry.dir) :: FS.erase fs p

/-- Delete the entry at a path (models `os.remove` / `os.rmdir`). -/
def FS.remove (fs : FS) (p : String) : FS :=
  FS.erase fs p

/-- Atomically rename `src` to `dst`, replacing `dst` (models `os.rename`
and the writer's commit step); a missing source leaves the filesystem
unchanged. -/
def FS.rename (fs : FS) (src dst : String) : FS :=
  match FS.lookup fs src with
  | some e => (dst, e) :: FS.erase (FS.erase fs src) dst
  | none => fs

/-- Test whether a directory occupies a path. -/
def FS.isDir (fs : FS) (p : String) : Bool :=
  match FS.lookup fs p with
  | some FsEntry.dir => true
  | _ => false

/-- Modelled from the spec: the Snapshot Writer stages its output at a
temporary path alongside the destination; the test pins this path to the
destination with `.new` appended. -/
def tempPath (dest : String) : String := dest ++ ".new"

/-- Path of the transaction-pool snapshot inside a node's data directory,
as used in the test: `<datadir>/regtest/mempool.dat`. -/
def mempoolDatPath (datadir : String) : String :=
  datadir ++ "/regtest/mempool.dat"

/-- Path of the orphan-pool snapshot inside a node's data directory,
as used in the test: `<datadir>/regtest/orphanpool.dat`. -/
def orphanpoolDatPath (datadir : String) : String :=
  datadir ++ "/regtest/orphanpool.dat"

/-- Modelled from the spec: the I/O failure of a dump, carrying the name of
the pool that could not be dumped. -/
inductive DumpError where
| unableToDump (poolName : String)
deriving DecidableEq

/-- Message surfaced to the RPC caller for a failed dump. -/
def DumpError.message : DumpError → String
| DumpError.unableToDump poolName => "Unable to dump " ++ poolName ++ " to disk"

/-- Modelled from the spec: the Snapshot Writer `dump` operation (its C++
implementation is not in this repository). It writes the encoded pool to
the temporary path, then atomically renames it over the destination.
Creating the temporary file fails when a directory occupies the temporary
path; the rename fails when a directory occupies the destination. Either
failure is reported as `IoError` ("Unable to dump <pool> to disk") and
leaves the destination untouched. Returns the command result together
with the filesystem after the attempt. -/
def dumpPool (fs : FS) (dest poolName : String) (entries : List Tx) :
    Except DumpError Unit × FS :=
  if FS.isDir fs (tempPath dest) then
    (Except.error (DumpError.unableToDump poolName), fs)
  else
    let staged := FS.write fs (tempPath dest) entries
    if FS.isDir staged dest then
      (Except.error (DumpError.unableToDump poolName), staged)
    else
      (Except.ok (), FS.rename staged (tempPath dest) dest)

/-- Modelled from the spec: the Snapshot Loader (its C++ implementation is
not in this repository). A missing or unreadable snapshot restores
nothing; otherwise every decoded entry is re-admitted through validation
and entries failing re-validation are silently dropped, in file order. -/
def loadPool (fs : FS) (src : String) (validate : Tx → Bool) : List Tx :=
  match FS.lookup fs src with
  | some (FsEntry.file entries) => entries.filter validate
  | _ => []

/-- In-memory pools of one node: admitted transaction pool and orphan pool. -/
structure NodeState where
  mempool : List Tx
  orphanpool : List Tx
deriving DecidableEq

/-- Modelled from the spec: the `savemempool` RPC, the on-demand dump of the
transaction pool, propagating the writer's result synchronously. -/
def savemempool (datadir : String) (node : NodeState) (fs : FS) :
    Except DumpError Unit × FS :=
  dumpPool fs (mempoolDatPath datadir) "mempool" node.mempool

/-- Modelled from the spec: the `saveorphanpool` RPC, the on-demand dump of
the orphan pool. -/
def saveorphanpool (datadir : String) (node : NodeState) (fs : FS) :
    Except DumpError Unit × FS :=
  dumpPool fs (orphanpoolDatPath datadir) "orphanpool" node.orphanpool

/-- Modelled from the spec: the Persistence Controller at shutdown. When
persistence is enabled it dumps the transaction pool and then the orphan
pool (a failed dump is only logged); when disabled it performs no I/O and
leaves any pre-existing snapshot files untouched. -/
def onShutdown (persistenceEnabled : Bool) (datadir : String)
    (node : NodeState) (fs : FS) : FS :=
  if persistenceEnabled then
    (dumpPool
      ((dumpPool fs (mempoolDatPath datadir) "mempool" node.mempool).2)
      (orphanpoolDatPath datadir) "orphanpool" node.orphanpool).2
  else fs

/-- Modelled from the spec: the Persistence Controller at startup. When
persistence is enabled it loads the transaction pool and then the orphan
pool through re-validation; when disabled it loads nothing and both pools
start empty. -/
def onStartup (persistenceEnabled : Bool) (datadir : String)
    (validate : Tx → Bool) (fs : FS) : NodeState :=
  if persistenceEnabled then
    { mempool := loadPool fs (mempoolDatPath datadir) validate
      orphanpool := loadPool fs (orphanpoolDatPath datadir) validate }
  else { mempool := [], orphanpool := [] }

/-- Modelled from the test: the default unconfirmed-chain depth limit
(`BCH_UNCONF_DEPTH`). -/
def BCH_UNCONF_DEPTH : Nat := 50

/-- Pools of a node during chained admission: the transaction pool records
each admitted transaction together with its unconfirmed-ancestor depth;
the orphan pool records transactions held back. -/
structure ChainPools where
  mempool : List (Nat × Nat)
  orphanpool : List Nat
deriving DecidableEq

/-- Depth recorded for a transaction in the transaction pool, if present. -/
def mempoolDepth : List (Nat × Nat) → Nat → Option Nat
| [], _ => none
| (j, dep) :: rest, i => if j = i then some dep else mempoolDepth rest i

/-- Modelled from the spec: admission of one transaction of a dependent
chain (the admission glue is not in this repository). A transaction whose
parent is confirmed has unconfirmed depth 1; one spending an unconfirmed
parent has the parent's depth plus 1. A transaction within the depth
limit enters the transaction pool; one beyond the limit, or whose parent
is not in the transaction pool, enters the orphan pool instead. -/
def admitChained (limit : Nat) (st : ChainPools) (i : Nat)
    (parent : Option Nat) : ChainPools :=
  match parent with
  | none =>
    if 1 ≤ limit then { st with mempool := st.mempool ++ [(i, 1)] }
    else { st with orphanpool := st.orphanpool ++ [i] }
  | some p =>
    match mempoolDepth st.mempool p with
    | some dep =>
      if dep + 1 ≤ limit then { st with mempool := st.mempool ++ [(i, dep + 1)] }
      else { st with orphanpool := st.orphanpool ++ [i] }
    | none => { st with orphanpool := st.orphanpool ++ [i] }

/-- Modelled from the test: submit a chain of `n` dependent transactions,
numbered `1, …, n`, where transaction 1 spends confirmed coins and
transaction `i + 1` spends an output of transaction `i`. -/
def submitChain (limit n : Nat) : ChainPools :=
  (List.range n).foldl
    (fun st k => admitChained limit st (k + 1) (if k = 0 then none else some k))
    { mempool := [], orphanpool := [] }

/-- Modelled from the spec: a peer that only receives relayed transactions.
Orphan-pool entries are not relayed, so the peer is handed exactly the
submitter's transaction-pool entries, in admission order, and admits each
through the same depth-limited path. -/
def peerPools (limit n : Nat) : ChainPools :=
  (submitChain limit n).mempool.foldl
    (fun st x =>
      admitChained limit st x.1 (if x.1 = 1 then none else some (x.1 - 1)))
    { mempool := [], orphanpool := [] }

/-- Canonical transaction-pool contents after submitting a chain: the
entries `(1, 1), …, (m, m)` (identifier paired with unconfirmed depth). -/
def chainSeg (m : Nat) : List (Nat × Nat) :=
  (List.range m).map (fun k => (k + 1, k + 1))

/-- Canonical orphan-pool contents after submitting a chain past the depth
limit: the identifiers `limit + 1, …, limit + m`. -/
def orphanSeg (limit m : Nat) : List Nat :=
  (List.range m).map (fun k => limit + k + 1)

/-! Basic lemmas about the filesystem model. -/

theorem FS.lookup_erase_self (fs : FS) (p : String) :
    (FS.erase fs p).lookup p = none := by
  induction fs with
  | nil => rfl
  | cons qe rest ih =>
    obtain ⟨q, e⟩ := qe
    by_cases h : q = p
    · simpa [FS.erase, h] using ih
    · simpa [FS.erase, FS.lookup, h] using ih

theorem FS.lookup_erase_ne (fs : FS) {p q : String} (h : q ≠ p) :
    (FS.erase fs p).lookup q = fs.lookup q := by
  induction fs with
  | nil => rfl
  | cons re rest ih =>
    obtain ⟨r, e⟩ := re
    by_cases hr : r = p
    · subst hr
      simpa [FS.erase, FS.lookup, Ne.symm h] using ih
    · by_cases hq : r = q
      · simp [FS.erase, FS.lookup, hr, hq, h]
      · simpa [FS.erase, FS.lookup, hr, hq] using ih

theorem FS.lookup_write_self (fs : FS) (p : String) (c : List Tx) :
    (FS.write fs p c).lookup p = some (FsEntry.file c) := by
  simp [FS.write, FS.lookup]

theorem FS.lookup_write_ne (fs : FS) (c : List Tx) {p q : String} (h : q ≠ p) :
    (FS.write fs p c).lookup q = fs.lookup q := by
  simp [FS.write, FS.lookup, Ne.symm h, FS.lookup_erase_ne fs h]

theorem FS.lookup_mkdir_self (fs : FS) (p : String) :
    (FS.mkdir fs p).lookup p = some FsEntry.dir := by
  simp [FS.mkdir, FS.lookup]

theorem FS.lookup_mkdir_ne (fs : FS) {p q : String} (h : q ≠ p) :
    (FS.mkdir fs p).lookup q = fs.lookup q := by
  simp [FS.mkdir, FS.lookup, Ne.symm h, FS.lookup_erase_ne fs h]

theorem FS.lookup_remove_self (fs : FS) (p : String) :
    (FS.remove fs p).lookup p = none :=
  FS.lookup_erase_self fs p

theorem FS.lookup_remove_ne (fs : FS) {p q : String} (h : q ≠ p) :
    (FS.remove fs p).lookup q = fs.lookup q :=
  FS.lookup_erase_ne fs h

theorem FS.lookup_rename_dst (fs : FS) {src : String} (dst : String) {e : FsEntry}
    (h : fs.lookup src = some e) :
    (fs.rename src dst).lookup dst = some e := by
  simp [FS.rename, h, FS.lookup]

theorem FS.lookup_rename_ne (fs : FS) {src dst q : String}
    (hs : q ≠ src) (hd : q ≠ dst) :
    (fs.rename src dst).lookup q = fs.lookup q := by
  cases hl : fs.lookup src with
  | none => simp [FS.rename, hl]
  | some e =>
    simp [FS.rename, hl, FS.lookup, Ne.symm hd,
      FS.lookup_erase_ne _ hd, FS.lookup_erase_ne _ hs]

theorem FS.isDir_eq_of_lookup_eq {fs1 fs2 : FS} {p q : String}
    (h : fs1.lookup p = fs2.lookup q) : fs1.isDir p = fs2.isDir q := by
  simp [FS.isDir, h]

/-! Distinctness of the snapshot paths. -/

theorem append_ne_of_length_ne (d : String) {s t : String}
    (h : s.length ≠ t.length) : d ++ s ≠ d ++ t := by
  intro he
  have hl := congrArg String.length he
  rw [String.length_append, String.length_append] at hl
  omega

theorem tempPath_ne_self (p : String) : tempPath p ≠ p := by
  intro h
  have hl := congrArg String.length h
  rw [tempPath, String.length_append] at hl
  have h4 : (".new" : String).length = 4 := by decide
  omega

theorem tempPath_mempoolDat (d : String) :
    tempPath (mempoolDatPath d) = d ++ "/regtest/mempool.dat.new" := by
  rw [tempPath, mempoolDatPath, String.append_assoc]
  exact congrArg (fun s => d ++ s) (by decide)

theorem tempPath_orphanpoolDat (d : String) :
    tempPath (orphanpoolDatPath d) = d ++ "/regtest/orphanpool.dat.new" := by
  rw [tempPath, orphanpoolDatPath, String.append_assoc]
  exact congrArg (fun s => d ++ s) (by decide)

theorem mempoolDat_ne_orphanpoolDat (d : String) :
    mempoolDatPath d ≠ orphanpoolDatPath d := by
  rw [mempoolDatPath, orphanpoolDatPath]
  exact append_ne_of_length_ne d (by decide)

theorem mempoolDat_ne_tempOrphan (d : String) :
    mempoolDatPath d ≠ tempPath (orphanpoolDatPath d) := by
  rw [mempoolDatPath, tempPath_orphanpoolDat]
  exact append_ne_of_length_ne d (by decide)

theorem orphanpoolDat_ne_tempMempool (d : String) :
    orphanpoolDatPath d ≠ tempPath (mempoolDatPath d) := by
  rw [orphanpoolDatPath, tempPath_mempoolDat]
  exact append_ne_of_length_ne d (by decide)

theorem tempMempool_ne_tempOrphan (d : String) :
    tempPath (mempoolDatPath d) ≠ tempPath (orphanpoolDatPath d) := by
  rw [tempPath_mempoolDat, tempPath_orphanpoolDat]
  exact append_ne_of_length_ne d (by decide)

/-! Characterization of the Snapshot Writer. -/

theorem dumpPool_ok (fs : FS) (dest poolName : String) (entries : List Tx)
    (ht : FS.isDir fs (tempPath dest) = false)
    (hd : FS.isDir fs dest = false) :
    dumpPool fs dest poolName entries =
      (Except.ok (),
        FS.rename (FS.write fs (tempPath dest) entries) (tempPath dest) dest) := by
  have hd2 : FS.isDir (FS.write fs (tempPath dest) entries) dest = false := by
    rw [FS.isDir_eq_of_lookup_eq
      (FS.lookup_write_ne fs entries (tempPath_ne_self dest).symm)]
    exact hd
  simp [dumpPool, ht, hd2]

theorem dumpPool_fst_ok (fs : FS) (dest poolName : String) (entries : List Tx)
    (ht : FS.isDir fs (tempPath dest) = false)
    (hd : FS.isDir fs dest = false) :
    (dumpPool fs dest poolName entries).1 = Except.ok () := by
  rw [dumpPool_ok fs dest poolName entries ht hd]

theorem dumpPool_fails_of_temp_dir (fs : FS) (dest poolName : String)
    (entries : List Tx) (ht : FS.isDir fs (tempPath dest) = true) :
    dumpPool fs dest poolName entries =
      (Except.error (DumpError.unableToDump poolName), fs) := by
  simp [dumpPool, ht]

theorem lookup_dumpPool_dest (fs : FS) (dest poolName : String) (entries : List Tx)
    (ht : FS.isDir fs (tempPath dest) = false)
    (hd : FS.isDir fs dest = false) :
    ((dumpPool fs dest poolName entries).2).lookup dest
      = some (FsEntry.file entries) := by
  rw [dumpPool_ok fs dest poolName entries ht hd]
  exact FS.lookup_rename_dst _ _ (FS.lookup_write_self fs (tempPath dest) entries)

theorem lookup_dumpPool_ne (fs : FS) (dest poolName : String) (entries : List Tx)
    {q : String} (hq1 : q ≠ dest) (hq2 : q ≠ tempPath dest) :
    ((dumpPool fs dest poolName entries).2).lookup q = fs.lookup q := by
  by_cases ht : FS.isDir fs (tempPath dest) = true
  · simp [dumpPool, ht]
  · rw [Bool.not_eq_true] at ht
    by_cases hd : FS.isDir (FS.write fs (tempPath dest) entries) dest = true
    · simp [dumpPool, ht, hd, FS.lookup_write_ne fs entries hq2]
    · rw [Bool.not_eq_true] at hd
      simp only [dumpPool, ht, hd, Bool.false_eq_true, if_false]
      rw [FS.lookup_rename_ne _ hq2 hq1, FS.lookup_write_ne fs entries hq2]

theorem dumpPool_error_atomic (fs : FS) (dest poolName : String)
    (entries : List Tx) {e : DumpError}
    (h : (dumpPool fs dest poolName entries).1 = Except.error e) :
    ((dumpPool fs dest poolName entries).2).lookup dest = fs.lookup dest := by
  by_cases ht : FS.isDir fs (tempPath dest) = true
  · simp [dumpPool, ht]
  · rw [Bool.not_eq_true] at ht
    by_cases hd : FS.isDir (FS.write fs (tempPath dest) entries) dest = true
    · simp [dumpPool, ht, hd,
        FS.lookup_write_ne fs entries (tempPath_ne_self dest).symm]
    · rw [Bool.not_eq_true] at hd
      rw [show (dumpPool fs dest poolName entries).1 = Except.ok () by
        simp [dumpPool, ht, hd]] at h
      exact absurd h (fun hh => Except.noConfusion hh)

/-! Characterization of the Persistence Controller. -/

theorem onShutdown_disabled (d : String) (node : NodeState) (fs : FS) :
    onShutdown false d node fs = fs := rfl

theorem onStartup_disabled (d : String) (validate : Tx → Bool) (fs : FS) :
    onStartup false d validate fs = { mempool := [], orphanpool := [] } := rfl

theorem lookup_onShutdown_enabled (d : String) (node : NodeState) (fs : FS)
    (hMT : FS.isDir fs (tempPath (mempoolDatPath d)) = false)
    (hM : FS.isDir fs (mempoolDatPath d) = false)
    (hOT : FS.isDir fs (tempPath (orphanpoolDatPath d)) = false)
    (hO : FS.isDir fs (orphanpoolDatPath d) = false) :
    (onShutdown true d node fs).lookup (mempoolDatPath d)
        = some (FsEntry.file node.mempool) ∧
    (onShutdown true d node fs).lookup (orphanpoolDatPath d)
        = some (FsEntry.file node.orphanpool) := by
  have hshape : onShutdown true d node fs =
      (dumpPool ((dumpPool fs (mempoolDatPath d) "mempool" node.mempool).2)
        (orphanpoolDatPath d) "orphanpool" node.orphanpool).2 := rfl
  have h1 : ((dumpPool fs (mempoolDatPath d) "mempool" node.mempool).2).lookup
      (mempoolDatPath d) = some (FsEntry.file node.mempool) :=
    lookup_dumpPool_dest fs _ _ _ hMT hM
  have hOT1 : FS.isDir ((dumpPool fs (mempoolDatPath d) "mempool" node.mempool).2)
      (tempPath (orphanpoolDatPath d)) = false := by
    rw [FS.isDir_eq_of_lookup_eq (lookup_dumpPool_ne fs _ _ _
      (Ne.symm (mempoolDat_ne_tempOrphan d)) (Ne.symm (tempMempool_ne_tempOrphan d)))]
    exact hOT
  have hO1 : FS.isDir ((dumpPool fs (mempoolDatPath d) "mempool" node.mempool).2)
      (orphanpoolDatPath d) = false := by
    rw [FS.isDir_eq_of_lookup_eq (lookup_dumpPool_ne fs _ _ _
      (Ne.symm (mempoolDat_ne_orphanpoolDat d)) (orphanpoolDat_ne_tempMempool d))]
    exact hO
  constructor
  · rw [hshape, lookup_dumpPool_ne _ _ _ _
      (mempoolDat_ne_orphanpoolDat d) (mempoolDat_ne_tempOrphan d)]
    exact h1
  · rw [hshape]
    exact lookup_dumpPool_dest _ _ _ _ hOT1 hO1

theorem FS.isDir_of_lookup_none {fs : FS} {p : String}
    (h : fs.lookup p = none) : fs.isDir p = false := by
  simp [FS.isDir, h]

theorem FS.isDir_of_lookup_dir {fs : FS} {p : String}
    (h : fs.lookup p = some FsEntry.dir) : fs.isDir p = true := by
  simp [FS.isDir, h]

theorem onStartup_enabled_restores (d : String) (fs : FS) (validate : Tx → Bool)
    (em eo : List Tx)
    (hm : fs.lookup (mempoolDatPath d) = some (FsEntry.file em))
    (ho : fs.lookup (orphanpoolDatPath d) = some (FsEntry.file eo))
    (hvm : ∀ t ∈ em, validate t = true) (hvo : ∀ t ∈ eo, validate t = true) :
    (onStartup true d validate fs).mempool = em ∧
    (onStartup true d validate fs).orphanpool = eo := by
  constructor
  · show loadPool fs (mempoolDatPath d) validate = em
    rw [loadPool, hm]
    exact List.filter_eq_self.mpr hvm
  · show loadPool fs (orphanpoolDatPath d) validate = eo
    rw [loadPool, ho]
    exact List.filter_eq_self.mpr hvo

/-! Claim theorems. -/

/-- C1: Round-trip persistence: for a node whose pools hold N entries,
shutting down (dump) and restarting (load) with persistence enabled and
chain state unchanged (every dumped entry still passes re-validation)
restores exactly N entries in each pool. -/
theorem roundtrip_restores_all_entries (d : String) (node : NodeState) (fs : FS)
    (validate : Tx → Bool)
    (hMT : FS.isDir fs (tempPath (mempoolDatPath d)) = false)
    (hM : FS.isDir fs (mempoolDatPath d) = false)
    (hOT : FS.isDir fs (tempPath (orphanpoolDatPath d)) = false)
    (hO : FS.isDir fs (orphanpoolDatPath d) = false)
    (hvm : ∀ t ∈ node.mempool, validate t = true)
    (hvo : ∀ t ∈ node.orphanpool, validate t = true) :
    (onStartup true d validate (onShutdown true d node fs)).mempool.length
        = node.mempool.length ∧
    (onStartup true d validate (onShutdown true d node fs)).orphanpool.length
        = node.orphanpool.length := by
  obtain ⟨hm, ho⟩ := lookup_onShutdown_enabled d node fs hMT hM hOT hO
  obtain ⟨h1, h2⟩ := onStartup_enabled_restores d _ validate _ _ hm ho hvm hvo
  exact ⟨congrArg List.length h1, congrArg List.length h2⟩

/-- C1 witness: on an empty filesystem, a node holding 5 mempool entries and
5 orphan-pool entries gets all 5 of each back after dump and reload. -/
theorem roundtrip_restores_all_entries_witness :
    FS.isDir ([] : FS) (tempPath (mempoolDatPath "/tmp/node0")) = false ∧
    (onStartup true "/tmp/node0" (fun _ => true)
        (onShutdown true "/tmp/node0"
          { mempool := [0, 1, 2, 3, 4], orphanpool := [5, 6, 7, 8, 9] }
          [])).mempool.length = 5 ∧
    (onStartup true "/tmp/node0" (fun _ => true)
        (onShutdown true "/tmp/node0"
          { mempool := [0, 1, 2, 3, 4], orphanpool := [5, 6, 7, 8, 9] }
          [])).orphanpool.length = 5 := by
  have h := roundtrip_restores_all_entries "/tmp/node0"
    { mempool := [0, 1, 2, 3, 4], orphanpool := [5, 6, 7, 8, 9] } []
    (fun _ => true) (by decide) (by decide) (by decide) (by decide)
    (by decide) (by decide)
  exact ⟨by decide, h.1, h.2⟩

/-- C2: Write-failure atomicity and error surfacing: when a directory
occupies the dump's temporary path, `savemempool` / `saveorphanpool`
fails synchronously with the error "Unable to dump <pool> to disk" and
the destination path is left in whatever state it was before. -/
theorem save_commands_fail_atomically (d : String) (node : NodeState) (fs : FS)
    (hm : FS.isDir fs (tempPath (mempoolDatPath d)) = true)
    (ho : FS.isDir fs (tempPath (orphanpoolDatPath d)) = true) :
    (savemempool d node fs).1
        = Except.error (DumpError.unableToDump "mempool") ∧
    (DumpError.unableToDump "mempool").message
        = "Unable to dump mempool to disk" ∧
    ((savemempool d node fs).2).lookup (mempoolDatPath d)
        = fs.lookup (mempoolDatPath d) ∧
    (saveorphanpool d node fs).1
        = Except.error (DumpError.unableToDump "orphanpool") ∧
    (DumpError.unableToDump "orphanpool").message
        = "Unable to dump orphanpool to disk" ∧
    ((saveorphanpool d node fs).2).lookup (orphanpoolDatPath d)
        = fs.lookup (orphanpoolDatPath d) := by
  have e1 := dumpPool_fails_of_temp_dir fs (mempoolDatPath d) "mempool"
    node.mempool hm
  have e2 := dumpPool_fails_of_temp_dir fs (orphanpoolDatPath d) "orphanpool"
    node.orphanpool ho
  refine ⟨?_, by decide, ?_, ?_, by decide, ?_⟩ <;>
    simp [savemempool, saveorphanpool, e1, e2]

/-- C2 witness: with directories at both temporary paths and an existing
one-entry snapshot at the mempool destination, both save commands fail
with the documented error and the existing snapshot is untouched. -/
theorem save_commands_fail_atomically_witness :
    FS.isDir [(tempPath (mempoolDatPath "/tmp/node1"), FsEntry.dir),
        (tempPath (orphanpoolDatPath "/tmp/node1"), FsEntry.dir),
        (mempoolDatPath "/tmp/node1", FsEntry.file [7])]
      (tempPath (mempoolDatPath "/tmp/node1")) = true ∧
    (savemempool "/tmp/node1" { mempool := [0], orphanpool := [] }
        [(tempPath (mempoolDatPath "/tmp/node1"), FsEntry.dir),
         (tempPath (orphanpoolDatPath "/tmp/node1"), FsEntry.dir),
         (mempoolDatPath "/tmp/node1", FsEntry.file [7])]).1
      = Except.error (DumpError.unableToDump "mempool") ∧
    ((savemempool "/tmp/node1" { mempool := [0], orphanpool := [] }
        [(tempPath (mempoolDatPath "/tmp/node1"), FsEntry.dir),
         (tempPath (orphanpoolDatPath "/tmp/node1"), FsEntry.dir),
         (mempoolDatPath "/tmp/node1", FsEntry.file [7])]).2).lookup
        (mempoolDatPath "/tmp/node1")
      = [(tempPath (mempoolDatPath "/tmp/node1"), FsEntry.dir),
         (tempPath (orphanpoolDatPath "/tmp/node1"), FsEntry.dir),
         (mempoolDatPath "/tmp/node1", FsEntry.file [7])].lookup
        (mempoolDatPath "/tmp/node1") := by
  have h := save_commands_fail_atomically "/tmp/node1"
    { mempool := [0], orphanpool := [] }
    [(tempPath (mempoolDatPath "/tmp/node1"), FsEntry.dir),
     (tempPath (orphanpoolDatPath "/tmp/node1"), FsEntry.dir),
     (mempoolDatPath "/tmp/node1", FsEntry.file [7])]
    (by decide) (by decide)
  exact ⟨by decide, h.1, h.2.2.1⟩

/-- C3 counterexample: a node holding no pool entries is shut down with
persistence disabled while a 5-entry snapshot from an earlier
persistence-enabled run is on disk; the subsequent (persistence-enabled)
restart restores 5 mempool entries, not 0, refuting the claim that every
subsequent restart restores 0 entries. -/
theorem disabled_dump_restart_counterexample :
    (onStartup true "/tmp/node0" (fun _ => true)
        (onShutdown false "/tmp/node0" { mempool := [], orphanpool := [] }
          [(mempoolDatPath "/tmp/node0",
            FsEntry.file [0, 1, 2, 3, 4])])).mempool.length = 5 := by
  decide

/-- C3 amended: shutting down with persistence disabled performs no dump
(the filesystem is unchanged, whatever the pools held), so when no
snapshot file is present on disk both restored pools have 0 entries on
every subsequent restart, with persistence enabled or disabled. -/
theorem disabled_shutdown_no_dump (d : String) (node : NodeState) (fs : FS)
    (enabledAtRestart : Bool) (validate : Tx → Bool)
    (hm : fs.lookup (mempoolDatPath d) = none)
    (ho : fs.lookup (orphanpoolDatPath d) = none) :
    onShutdown false d node fs = fs ∧
    (onStartup enabledAtRestart d validate
        (onShutdown false d node fs)).mempool.length = 0 ∧
    (onStartup enabledAtRestart d validate
        (onShutdown false d node fs)).orphanpool.length = 0 := by
  refine ⟨rfl, ?_, ?_⟩
  · cases enabledAtRestart
    · rfl
    · show (loadPool fs (mempoolDatPath d) validate).length = 0
      rw [loadPool, hm]
      rfl
  · cases enabledAtRestart
    · rfl
    · show (loadPool fs (orphanpoolDatPath d) validate).length = 0
      rw [loadPool, ho]
      rfl

/-- C3 amended witness: a node with 5 entries in each pool, shut down with
persistence disabled over an empty filesystem, leaves the filesystem
unchanged and restores 0 entries on an enabled restart. -/
theorem disabled_shutdown_no_dump_witness :
    FS.lookup ([] : FS) (mempoolDatPath "/tmp/node1") = none ∧
    onShutdown false "/tmp/node1"
        { mempool := [0, 1, 2, 3, 4], orphanpool := [5, 6, 7, 8, 9] } [] = [] ∧
    (onStartup true "/tmp/node1" (fun _ => true)
        (onShutdown false "/tmp/node1"
          { mempool := [0, 1, 2, 3, 4], orphanpool := [5, 6, 7, 8, 9] }
          [])).mempool.length = 0 := by
  have h := disabled_shutdown_no_dump "/tmp/node1"
    { mempool := [0, 1, 2, 3, 4], orphanpool := [5, 6, 7, 8, 9] } []
    true (fun _ => true) (by decide) (by decide)
  exact ⟨by decide, h.1, h.2.1⟩

/-- C4: a node started with persistence disabled does not read an existing
valid snapshot file: its restored pools have 0 entries even though a
snapshot written by a previous persistence-enabled shutdown is on disk. -/
theorem disabled_startup_no_load (d : String) (fs : FS) (validate : Tx → Bool)
    (entries : List Tx)
    (hm : fs.lookup (mempoolDatPath d) = some (FsEntry.file entries)) :
    (onStartup false d validate fs).mempool.length = 0 ∧
    (onStartup false d validate fs).orphanpool.length = 0 :=
  ⟨rfl, rfl⟩

/-- C4 witness: with a 5-entry snapshot on disk, a disabled startup restores
0 entries. -/
theorem disabled_startup_no_load_witness :
    FS.lookup [(mempoolDatPath "/tmp/node0", FsEntry.file [0, 1, 2, 3, 4])]
        (mempoolDatPath "/tmp/node0") = some (FsEntry.file [0, 1, 2, 3, 4]) ∧
    (onStartup false "/tmp/node0" (fun _ => true)
        [(mempoolDatPath "/tmp/node0",
          FsEntry.file [0, 1, 2, 3, 4])]).mempool.length = 0 := by
  have h := disabled_startup_no_load "/tmp/node0"
    [(mempoolDatPath "/tmp/node0", FsEntry.file [0, 1, 2, 3, 4])]
    (fun _ => true) [0, 1, 2, 3, 4] (by decide)
  exact ⟨by decide, h.1⟩

/-- C5: disabling persistence is non-destructive: a shutdown with
persistence disabled leaves the filesystem exactly as it was, so a later
persistence-enabled restart still finds and loads the snapshot written by
an earlier persistence-enabled shutdown, restoring its full entry count. -/
theorem disabled_run_preserves_snapshot (d : String) (node nodeLater : NodeState)
    (fs : FS) (validate : Tx → Bool)
    (hMT : FS.isDir fs (tempPath (mempoolDatPath d)) = false)
    (hM : FS.isDir fs (mempoolDatPath d) = false)
    (hOT : FS.isDir fs (tempPath (orphanpoolDatPath d)) = false)
    (hO : FS.isDir fs (orphanpoolDatPath d) = false)
    (hvm : ∀ t ∈ node.mempool, validate t = true)
    (hvo : ∀ t ∈ node.orphanpool, validate t = true) :
    onShutdown false d nodeLater (onShutdown true d node fs)
        = onShutdown true d node fs ∧
    (onStartup true d validate
        (onShutdown false d nodeLater (onShutdown true d node fs))).mempool.length
        = node.mempool.length ∧
    (onStartup true d validate
        (onShutdown false d nodeLater
          (onShutdown true d node fs))).orphanpool.length
        = node.orphanpool.length := by
  obtain ⟨hm, ho⟩ := lookup_onShutdown_enabled d node fs hMT hM hOT hO
  obtain ⟨h1, h2⟩ := onStartup_enabled_restores d _ validate _ _ hm ho hvm hvo
  exact ⟨rfl, congrArg List.length h1, congrArg List.length h2⟩

/-- C5 witness: 5 entries per pool dumped by an enabled shutdown survive an
intervening disabled shutdown and are all restored by an enabled restart. -/
theorem disabled_run_preserves_snapshot_witness :
    FS.isDir ([] : FS) (mempoolDatPath "/tmp/node0") = false ∧
    (onStartup true "/tmp/node0" (fun _ => true)
        (onShutdown false "/tmp/node0" { mempool := [], orphanpool := [] }
          (onShutdown true "/tmp/node0"
            { mempool := [0, 1, 2, 3, 4], orphanpool := [5, 6, 7, 8, 9] }
            []))).mempool.length = 5 := by
  have h := disabled_run_preserves_snapshot "/tmp/node0"
    { mempool := [0, 1, 2, 3, 4], orphanpool := [5, 6, 7, 8, 9] }
    { mempool := [], orphanpool := [] } [] (fun _ => true)
    (by decide) (by decide) (by decide) (by decide) (by decide) (by decide)
  exact ⟨by decide, h.2.1⟩

/-- C6: on-demand recreation: after the snapshot file has been deleted,
`savemempool` / `saveorphanpool` succeeds and a file exists again at the
same path containing the pool's current contents. -/
theorem save_recreates_snapshot (d : String) (node : NodeState) (fs : FS)
    (hMT : FS.isDir fs (tempPath (mempoolDatPath d)) = false)
    (hOT : FS.isDir fs (tempPath (orphanpoolDatPath d)) = false) :
    (savemempool d node (FS.remove fs (mempoolDatPath d))).1 = Except.ok () ∧
    ((savemempool d node (FS.remove fs (mempoolDatPath d))).2).lookup
        (mempoolDatPath d) = some (FsEntry.file node.mempool) ∧
    (saveorphanpool d node (FS.remove fs (orphanpoolDatPath d))).1
        = Except.ok () ∧
    ((saveorphanpool d node (FS.remove fs (orphanpoolDatPath d))).2).lookup
        (orphanpoolDatPath d) = some (FsEntry.file node.orphanpool) := by
  have hMT2 : FS.isDir (FS.remove fs (mempoolDatPath d))
      (tempPath (mempoolDatPath d)) = false := by
    rw [FS.isDir_eq_of_lookup_eq (FS.lookup_remove_ne fs (tempPath_ne_self _))]
    exact hMT
  have hM2 : FS.isDir (FS.remove fs (mempoolDatPath d)) (mempoolDatPath d)
      = false :=
    FS.isDir_of_lookup_none (FS.lookup_remove_self fs _)
  have hOT2 : FS.isDir (FS.remove fs (orphanpoolDatPath d))
      (tempPath (orphanpoolDatPath d)) = false := by
    rw [FS.isDir_eq_of_lookup_eq (FS.lookup_remove_ne fs (tempPath_ne_self _))]
    exact hOT
  have hO2 : FS.isDir (FS.remove fs (orphanpoolDatPath d)) (orphanpoolDatPath d)
      = false :=
    FS.isDir_of_lookup_none (FS.lookup_remove_self fs _)
  exact ⟨dumpPool_fst_ok _ _ _ _ hMT2 hM2,
    lookup_dumpPool_dest _ _ _ _ hMT2 hM2,
    dumpPool_fst_ok _ _ _ _ hOT2 hO2,
    lookup_dumpPool_dest _ _ _ _ hOT2 hO2⟩

/-- C6 witness: deleting a snapshot from a filesystem that held one and
saving again succeeds and recreates the file with the current pool. -/
theorem save_recreates_snapshot_witness :
    FS.isDir [(mempoolDatPath "/tmp/node0", FsEntry.file [9])]
        (tempPath (mempoolDatPath "/tmp/node0")) = false ∧
    ((savemempool "/tmp/node0" { mempool := [0, 1, 2, 3, 4], orphanpool := [] }
        (FS.remove [(mempoolDatPath "/tmp/node0", FsEntry.file [9])]
          (mempoolDatPath "/tmp/node0"))).2).lookup (mempoolDatPath "/tmp/node0")
      = some (FsEntry.file [0, 1, 2, 3, 4]) := by
  have h := save_recreates_snapshot "/tmp/node0"
    { mempool := [0, 1, 2, 3, 4], orphanpool := [] }
    [(mempoolDatPath "/tmp/node0", FsEntry.file [9])] (by decide) (by decide)
  exact ⟨by decide, h.2.1⟩

/-- C7: cross-instance transplant: snapshot files written by one node
instance, moved into another instance's data directory before that
instance starts, are loaded there and yield the same restored entry
count, subject to re-validation against the receiving node's chain state
(here: every entry passes it). -/
theorem snapshot_transplant (dA dB : String) (node : NodeState) (fs : FS)
    (validate : Tx → Bool)
    (hMT : FS.isDir fs (tempPath (mempoolDatPath dA)) = false)
    (hM : FS.isDir fs (mempoolDatPath dA) = false)
    (hOT : FS.isDir fs (tempPath (orphanpoolDatPath dA)) = false)
    (hO : FS.isDir fs (orphanpoolDatPath dA) = false)
    (hvm : ∀ t ∈ node.mempool, validate t = true)
    (hvo : ∀ t ∈ node.orphanpool, validate t = true)
    (hBA : mempoolDatPath dB ≠ orphanpoolDatPath dA) :
    (onStartup true dB validate
        (FS.rename
          (FS.rename (onShutdown true dA node fs)
            (mempoolDatPath dA) (mempoolDatPath dB))
          (orphanpoolDatPath dA) (orphanpoolDatPath dB))).mempool.length
      = node.mempool.length ∧
    (onStartup true dB validate
        (FS.rename
          (FS.rename (onShutdown true dA node fs)
            (mempoolDatPath dA) (mempoolDatPath dB))
          (orphanpoolDatPath dA) (orphanpoolDatPath dB))).orphanpool.length
      = node.orphanpool.length := by
  obtain ⟨hm1, ho1⟩ := lookup_onShutdown_enabled dA node fs hMT hM hOT hO
  have hm2 : (FS.rename (onShutdown true dA node fs)
      (mempoolDatPath dA) (mempoolDatPath dB)).lookup (mempoolDatPath dB)
      = some (FsEntry.file node.mempool) :=
    FS.lookup_rename_dst _ _ hm1
  have ho2 : (FS.rename (onShutdown true dA node fs)
      (mempoolDatPath dA) (mempoolDatPath dB)).lookup (orphanpoolDatPath dA)
      = some (FsEntry.file node.orphanpool) := by
    rw [FS.lookup_rename_ne _ (Ne.symm (mempoolDat_ne_orphanpoolDat dA))
      (Ne.symm hBA)]
    exact ho1
  have hm3 : (FS.rename
      (FS.rename (onShutdown true dA node fs)
        (mempoolDatPath dA) (mempoolDatPath dB))
      (orphanpoolDatPath dA) (orphanpoolDatPath dB)).lookup (mempoolDatPath dB)
      = some (FsEntry.file node.mempool) := by
    rw [FS.lookup_rename_ne _ hBA (mempoolDat_ne_orphanpoolDat dB)]
    exact hm2
  have ho3 : (FS.rename
      (FS.rename (onShutdown true dA node fs)
        (mempoolDatPath dA) (mempoolDatPath dB))
      (orphanpoolDatPath dA) (orphanpoolDatPath dB)).lookup
      (orphanpoolDatPath dB)
      = some (FsEntry.file node.orphanpool) :=
    FS.lookup_rename_dst _ _ ho2
  obtain ⟨h1, h2⟩ := onStartup_enabled_restores dB _ validate _ _ hm3 ho3 hvm hvo
  exact ⟨congrArg List.length h1, congrArg List.length h2⟩

/-- C7 witness: 5-entry mempool and orphan-pool snapshots written under
node0's data directory and moved under node1's restore 5 entries each on
node1. -/
theorem snapshot_transplant_witness :
    mempoolDatPath "/tmp/node1" ≠ orphanpoolDatPath "/tmp/node0" ∧
    (onStartup true "/tmp/node1" (fun _ => true)
        (FS.rename
          (FS.rename (onShutdown true "/tmp/node0"
              { mempool := [0, 1, 2, 3, 4], orphanpool := [5, 6, 7, 8, 9] } [])
            (mempoolDatPath "/tmp/node0") (mempoolDatPath "/tmp/node1"))
          (orphanpoolDatPath "/tmp/node0")
          (orphanpoolDatPath "/tmp/node1"))).mempool.length = 5 ∧
    (onStartup true "/tmp/node1" (fun _ => true)
        (FS.rename
          (FS.rename (onShutdown true "/tmp/node0"
              { mempool := [0, 1, 2, 3, 4], orphanpool := [5, 6, 7, 8, 9] } [])
            (mempoolDatPath "/tmp/node0") (mempoolDatPath "/tmp/node1"))
          (orphanpoolDatPath "/tmp/node0")
          (orphanpoolDatPath "/tmp/node1"))).orphanpool.length = 5 := by
  have h := snapshot_transplant "/tmp/node0" "/tmp/node1"
    { mempool := [0, 1, 2, 3, 4], orphanpool := [5, 6, 7, 8, 9] } []
    (fun _ => true) (by decide) (by decide) (by decide) (by decide)
    (by decide) (by decide) (by decide)
  exact ⟨by decide, h.1, h.2⟩

/-- C9: the Snapshot Writer's temporary path is exactly the destination
with `.new` appended; on a filesystem where the dump would succeed,
creating a directory at `<destination>.new` makes the dump command fail,
and removing that directory restores its ability to succeed. -/
theorem temp_collision_controls_dump (d : String) (node : NodeState) (fs : FS)
    (hMT : FS.isDir fs (tempPath (mempoolDatPath d)) = false)
    (hM : FS.isDir fs (mempoolDatPath d) = false)
    (hOT : FS.isDir fs (tempPath (orphanpoolDatPath d)) = false)
    (hO : FS.isDir fs (orphanpoolDatPath d) = false) :
    tempPath (mempoolDatPath d) = mempoolDatPath d ++ ".new" ∧
    (savemempool d node fs).1 = Except.ok () ∧
    (savemempool d node
        (FS.mkdir fs (mempoolDatPath d ++ ".new"))).1
      = Except.error (DumpError.unableToDump "mempool") ∧
    (savemempool d node
        (FS.remove (FS.mkdir fs (mempoolDatPath d ++ ".new"))
          (mempoolDatPath d ++ ".new"))).1 = Except.ok () ∧
    tempPath (orphanpoolDatPath d) = orphanpoolDatPath d ++ ".new" ∧
    (saveorphanpool d node fs).1 = Except.ok () ∧
    (saveorphanpool d node
        (FS.mkdir fs (orphanpoolDatPath d ++ ".new"))).1
      = Except.error (DumpError.unableToDump "orphanpool") ∧
    (saveorphanpool d node
        (FS.remove (FS.mkdir fs (orphanpoolDatPath d ++ ".new"))
          (orphanpoolDatPath d ++ ".new"))).1 = Except.ok () := by
  have hMdirTrue : FS.isDir (FS.mkdir fs (tempPath (mempoolDatPath d)))
      (tempPath (mempoolDatPath d)) = true :=
    FS.isDir_of_lookup_dir (FS.lookup_mkdir_self fs _)
  have hOdirTrue : FS.isDir (FS.mkdir fs (tempPath (orphanpoolDatPath d)))
      (tempPath (orphanpoolDatPath d)) = true :=
    FS.isDir_of_lookup_dir (FS.lookup_mkdir_self fs _)
  have hMT3 : FS.isDir (FS.remove (FS.mkdir fs (tempPath (mempoolDatPath d)))
      (tempPath (mempoolDatPath d))) (tempPath (mempoolDatPath d)) = false :=
    FS.isDir_of_lookup_none (FS.lookup_remove_self _ _)
  have hM3 : FS.isDir (FS.remove (FS.mkdir fs (tempPath (mempoolDatPath d)))
      (tempPath (mempoolDatPath d))) (mempoolDatPath d) = false := by
    rw [FS.isDir_eq_of_lookup_eq
      ((FS.lookup_remove_ne _ (tempPath_ne_self _).symm).trans
        (FS.lookup_mkdir_ne fs (tempPath_ne_self _).symm))]
    exact hM
  have hOT3 : FS.isDir (FS.remove (FS.mkdir fs (tempPath (orphanpoolDatPath d)))
      (tempPath (orphanpoolDatPath d))) (tempPath (orphanpoolDatPath d))
      = false :=
    FS.isDir_of_lookup_none (FS.lookup_remove_self _ _)
  have hO3 : FS.isDir (FS.remove (FS.mkdir fs (tempPath (orphanpoolDatPath d)))
      (tempPath (orphanpoolDatPath d))) (orphanpoolDatPath d) = false := by
    rw [FS.isDir_eq_of_lookup_eq
      ((FS.lookup_remove_ne _ (tempPath_ne_self _).symm).trans
        (FS.lookup_mkdir_ne fs (tempPath_ne_self _).symm))]
    exact hO
  refine ⟨rfl, dumpPool_fst_ok _ _ _ _ hMT hM, ?_,
    dumpPool_fst_ok _ _ _ _ hMT3 hM3, rfl,
    dumpPool_fst_ok _ _ _ _ hOT hO, ?_,
    dumpPool_fst_ok _ _ _ _ hOT3 hO3⟩
  · rw [show savemempool d node (FS.mkdir fs (mempoolDatPath d ++ ".new"))
        = dumpPool (FS.mkdir fs (tempPath (mempoolDatPath d)))
          (mempoolDatPath d) "mempool" node.mempool from rfl,
      dumpPool_fails_of_temp_dir _ _ _ _ hMdirTrue]
  · rw [show saveorphanpool d node (FS.mkdir fs (orphanpoolDatPath d ++ ".new"))
        = dumpPool (FS.mkdir fs (tempPath (orphanpoolDatPath d)))
          (orphanpoolDatPath d) "orphanpool" node.orphanpool from rfl,
      dumpPool_fails_of_temp_dir _ _ _ _ hOdirTrue]

/-- C9 witness: on an empty filesystem, creating the directory
`<datadir>/regtest/mempool.dat.new` makes `savemempool` fail and removing
it makes it succeed again. -/
theorem temp_collision_controls_dump_witness :
    FS.isDir ([] : FS) (tempPath (mempoolDatPath "/tmp/node1")) = false ∧
    (savemempool "/tmp/node1" { mempool := [0], orphanpool := [] }
        (FS.mkdir [] (mempoolDatPath "/tmp/node1" ++ ".new"))).1
      = Except.error (DumpError.unableToDump "mempool") ∧
    (savemempool "/tmp/node1" { mempool := [0], orphanpool := [] }
        (FS.remove (FS.mkdir [] (mempoolDatPath "/tmp/node1" ++ ".new"))
          (mempoolDatPath "/tmp/node1" ++ ".new"))).1 = Except.ok () := by
  have h := temp_collision_controls_dump "/tmp/node1"
    { mempool := [0], orphanpool := [] } []
    (by decide) (by decide) (by decide) (by decide)
  exact ⟨by decide, h.2.2.1, h.2.2.2.1⟩

/-- C10: the two snapshot files have the fixed names `mempool.dat` and
`orphanpool.dat` directly inside the node's network-specific data
directory `<datadir>/regtest/`, and these are the paths the writer
commits to and the loader reads from. -/
theorem snapshot_paths_fixed (d : String) (node : NodeState) (fs : FS)
    (validate : Tx → Bool)
    (hMT : FS.isDir fs (tempPath (mempoolDatPath d)) = false)
    (hM : FS.isDir fs (mempoolDatPath d) = false)
    (hOT : FS.isDir fs (tempPath (orphanpoolDatPath d)) = false)
    (hO : FS.isDir fs (orphanpoolDatPath d) = false) :
    mempoolDatPath d = d ++ "/regtest/mempool.dat" ∧
    orphanpoolDatPath d = d ++ "/regtest/orphanpool.dat" ∧
    (onShutdown true d node fs).lookup (d ++ "/regtest/mempool.dat")
        = some (FsEntry.file node.mempool) ∧
    (onShutdown true d node fs).lookup (d ++ "/regtest/orphanpool.dat")
        = some (FsEntry.file node.orphanpool) ∧
    (onStartup true d validate fs).mempool
        = loadPool fs (d ++ "/regtest/mempool.dat") validate ∧
    (onStartup true d validate fs).orphanpool
        = loadPool fs (d ++ "/regtest/orphanpool.dat") validate := by
  obtain ⟨h1, h2⟩ := lookup_onShutdown_enabled d node fs hMT hM hOT hO
  exact ⟨rfl, rfl, h1, h2, rfl, rfl⟩

/-- C10 witness: concrete instance at datadir `/tmp/node0` with one entry
per pool over an empty filesystem. -/
theorem snapshot_paths_fixed_witness :
    FS.isDir ([] : FS) (mempoolDatPath "/tmp/node0") = false ∧
    mempoolDatPath "/tmp/node0" = "/tmp/node0" ++ "/regtest/mempool.dat" ∧
    (onShutdown true "/tmp/node0" { mempool := [3], orphanpool := [4] }
        []).lookup ("/tmp/node0" ++ "/regtest/mempool.dat")
      = some (FsEntry.file [3]) := by
  have h := snapshot_paths_fixed "/tmp/node0"
    { mempool := [3], orphanpool := [4] } [] (fun _ => true)
    (by decide) (by decide) (by decide) (by decide)
  exact ⟨by decide, h.1, h.2.2.1⟩

/-! Depth-limited chained admission. -/

theorem chainSeg_succ (m : Nat) :
    chainSeg (m + 1) = chainSeg m ++ [(m + 1, m + 1)] := by
  simp [chainSeg, List.range_succ]

theorem orphanSeg_succ (limit m : Nat) :
    orphanSeg limit (m + 1) = orphanSeg limit m ++ [limit + m + 1] := by
  simp [orphanSeg, List.range_succ]

theorem length_chainSeg (m : Nat) : (chainSeg m).length = m := by
  simp [chainSeg]

theorem length_orphanSeg (limit m : Nat) : (orphanSeg limit m).length = m := by
  simp [orphanSeg]

theorem mempoolDepth_append (l1 l2 : List (Nat × Nat)) (i : Nat) :
    mempoolDepth (l1 ++ l2) i =
      match mempoolDepth l1 i with
      | some dep => some dep
      | none => mempoolDepth l2 i := by
  induction l1 with
  | nil => rfl
  | cons x rest ih =>
    obtain ⟨j, dep⟩ := x
    by_cases h : j = i
    · simp [mempoolDepth, h]
    · simpa [mempoolDepth, h] using ih

theorem mempoolDepth_chainSeg (m i : Nat) :
    mempoolDepth (chainSeg m) i = if 1 ≤ i ∧ i ≤ m then some i else none := by
  induction m with
  | zero =>
    rw [if_neg (by omega : ¬(1 ≤ i ∧ i ≤ 0))]
    rfl
  | succ m ih =>
    rw [chainSeg_succ, mempoolDepth_append, ih]
    by_cases h1 : 1 ≤ i ∧ i ≤ m
    · rw [if_pos h1, if_pos ⟨h1.1, Nat.le_succ_of_le h1.2⟩]
    · rw [if_neg h1]
      by_cases h2 : i = m + 1
      · subst h2
        have hc : 1 ≤ m + 1 ∧ m + 1 ≤ m + 1 := by omega
        simp [mempoolDepth, hc]
      · have hc : ¬(1 ≤ i ∧ i ≤ m + 1) := by omega
        have hne : ¬(m + 1 = i) := fun hh => h2 hh.symm
        simp [mempoolDepth, hne, hc]

theorem admitChained_root (limit : Nat) (st : ChainPools) (i : Nat)
    (h : 1 ≤ limit) :
    admitChained limit st i none
      = { st with mempool := st.mempool ++ [(i, 1)] } := by
  simp [admitChained, h]

theorem admitChained_parent_in (limit : Nat) (st : ChainPools) (i p dep : Nat)
    (h : mempoolDepth st.mempool p = some dep) :
    admitChained limit st i (some p) =
      if dep + 1 ≤ limit
      then { st with mempool := st.mempool ++ [(i, dep + 1)] }
      else { st with orphanpool := st.orphanpool ++ [i] } := by
  simp [admitChained, h]

theorem admitChained_parent_missing (limit : Nat) (st : ChainPools) (i p : Nat)
    (h : mempoolDepth st.mempool p = none) :
    admitChained limit st i (some p)
      = { st with orphanpool := st.orphanpool ++ [i] } := by
  simp [admitChained, h]

theorem submitChain_succ (limit n : Nat) :
    submitChain limit (n + 1)
      = admitChained limit (submitChain limit n) (n + 1)
        (if n = 0 then none else some n) := by
  rw [submitChain, List.range_succ, List.foldl_append]
  rfl

theorem submitChain_eq (limit : Nat) (hlim : 0 < limit) (n : Nat) :
    (submitChain limit n).mempool = chainSeg (min n limit) ∧
    (submitChain limit n).orphanpool = orphanSeg limit (n - limit) := by
  induction n with
  | zero =>
    constructor
    · show ([] : List (Nat × Nat)) = chainSeg (min 0 limit)
      rw [Nat.zero_min]
      rfl
    · show ([] : List Nat) = orphanSeg limit (0 - limit)
      rw [Nat.zero_sub]
      rfl
  | succ n ih =>
    obtain ⟨ihm, iho⟩ := ih
    rcases Nat.eq_zero_or_pos n with hn | hn
    · subst hn
      rw [submitChain_succ, if_pos rfl, admitChained_root _ _ _ hlim]
      constructor
      · show (submitChain limit 0).mempool ++ [(1, 1)] = chainSeg (min 1 limit)
        rw [ihm, Nat.zero_min, Nat.min_eq_left hlim]
        rfl
      · show (submitChain limit 0).orphanpool = orphanSeg limit (1 - limit)
        rw [iho]
        exact congrArg (orphanSeg limit) (by omega)
    · have hn0 : ¬(n = 0) := by omega
      rw [submitChain_succ, if_neg hn0]
      by_cases hA : n ≤ limit
      · have hmin : min n limit = n := Nat.min_eq_left hA
        have hdep : mempoolDepth (submitChain limit n).mempool n = some n := by
          rw [ihm, hmin, mempoolDepth_chainSeg, if_pos ⟨hn, Nat.le_refl n⟩]
        rw [admitChained_parent_in _ _ _ _ _ hdep]
        by_cases hA1 : n + 1 ≤ limit
        · rw [if_pos hA1]
          constructor
          · show (submitChain limit n).mempool ++ [(n + 1, n + 1)]
                = chainSeg (min (n + 1) limit)
            rw [ihm, hmin, Nat.min_eq_left hA1, chainSeg_succ]
          · show (submitChain limit n).orphanpool = orphanSeg limit (n + 1 - limit)
            rw [iho]
            exact congrArg (orphanSeg limit) (by omega)
        · rw [if_neg hA1]
          constructor
          · show (submitChain limit n).mempool = chainSeg (min (n + 1) limit)
            rw [ihm, hmin, Nat.min_eq_right (by omega : limit ≤ n + 1)]
            exact congrArg chainSeg (by omega)
          · show (submitChain limit n).orphanpool ++ [n + 1]
                = orphanSeg limit (n + 1 - limit)
            rw [iho, show n - limit = 0 from by omega,
              show n + 1 - limit = 1 from by omega, orphanSeg_succ,
              show n + 1 = limit + 0 + 1 from by omega]
      · have hmin : min n limit = limit := Nat.min_eq_right (by omega)
        have hdep : mempoolDepth (submitChain limit n).mempool n = none := by
          rw [ihm, hmin, mempoolDepth_chainSeg, if_neg (by omega)]
        rw [admitChained_parent_missing _ _ _ _ hdep]
        constructor
        · show (submitChain limit n).mempool = chainSeg (min (n + 1) limit)
          rw [ihm, hmin, Nat.min_eq_right (by omega : limit ≤ n + 1)]
        · show (submitChain limit n).orphanpool ++ [n + 1]
              = orphanSeg limit (n + 1 - limit)
          rw [iho, show n + 1 - limit = (n - limit) + 1 from by omega,
            orphanSeg_succ, show n + 1 = limit + (n - limit) + 1 from by omega]

/-- C8: depth-limit orphaning: submitting a chain of dependent unconfirmed
transactions admits those within the depth limit into the transaction
pool and sends every transaction beyond it to the orphan pool: with a
positive limit, `min n limit` transactions are admitted and `n - limit`
are orphaned; at the default limit 50, a chain of 55 leaves exactly 5
entries in the submitter's orphan pool and 0 in the orphan pool of a
peer that only receives relayed transactions. -/
theorem depth_limit_orphaning (limit n : Nat) (hlim : 0 < limit) :
    (submitChain limit n).mempool.length = min n limit ∧
    (submitChain limit n).orphanpool.length = n - limit ∧
    (submitChain BCH_UNCONF_DEPTH (BCH_UNCONF_DEPTH + 5)).mempool.length = 50 ∧
    (submitChain BCH_UNCONF_DEPTH (BCH_UNCONF_DEPTH + 5)).orphanpool.length = 5 ∧
    (peerPools BCH_UNCONF_DEPTH (BCH_UNCONF_DEPTH + 5)).orphanpool.length = 0 := by
  obtain ⟨hm, ho⟩ := submitChain_eq limit hlim n
  refine ⟨?_, ?_, by decide, by decide, by decide⟩
  · rw [hm, length_chainSeg]
  · rw [ho, length_orphanSeg]

/-- C8 witness: at the default depth limit 50 and a chain of 55, the
submitter's pools hold 50 and 5 entries. -/
theorem depth_limit_orphaning_witness :
    0 < 50 ∧
    (submitChain 50 55).mempool.length = min 55 50 ∧
    (submitChain 50 55).orphanpool.length = 55 - 50 := by
  have h := depth_limit_orphaning 50 55 (by decide)
  exact ⟨by decide, h.1, h.2.1⟩

end MempoolPersist
